import Mathlib

/-!
Verification of the Dropwave ride-hailing backend core
(`src/controllers/driver.controller.ts` and the user controller),
covering the OTP verification-code store, the Haversine distance
function, the fare estimator, and the `/ride-price` request handler.

The OTP store is embedded computably: the JS `Map` becomes a function
`String → Option OtpData`, `Date.now()` becomes an explicit `now : ℕ`
argument (milliseconds), and `isOtpValid`'s possible deletion is made
explicit by returning the updated cache alongside the boolean.

The geodesic and pricing code is embedded over `ℝ`; `Math.atan2` is
modelled by `atan2` below following the JavaScript specification, and
`Number.prototype.toFixed(2)` by rounding at two decimals (`toFixed2`
for the numeric value, `formatFixed2` for the rendered string).
-/

namespace Dropwave

/-- Cache entry, from `interface OtpData { otp: string; expiry: number }`.
`expiry` is a millisecond timestamp. -/
structure OtpData where
  otp : String
  expiry : ℕ
deriving DecidableEq

/-- The `otpCache : Map<string, OtpData>` keyed by phone number or email,
modelled as a function from keys to optional entries. -/
def OtpCache : Type := String → Option OtpData

/-- A `Map` with no entries. -/
def emptyCache : OtpCache := fun _ => none

/-- `Map.prototype.set`: insert or overwrite the entry at `k`. -/
def OtpCache.set (c : OtpCache) (k : String) (v : OtpData) : OtpCache :=
  fun k2 => if k2 = k then some v else c k2

/-- `Map.prototype.delete`: remove the entry at `k`. -/
def OtpCache.delete (c : OtpCache) (k : String) : OtpCache :=
  fun k2 => if k2 = k then none else c k2

/-- `const generateOtp = () => Math.floor(1000 + Math.random() * 9000).toString()`.
The outcome `r` of `Math.random()` (a number in `[0, 1)`) is passed explicitly,
modelled as a rational. -/
def generateOtp (r : ℚ) : String := toString (Int.toNat ⌊1000 + r * 9000⌋)

/-- `storeOtp(identifier, otp, ttl = 300000)`: store the code keyed by
`identifier` with expiry `Date.now() + ttl` (the current time `now` is
passed explicitly).  The source also schedules a deferred
`setTimeout(() => otpCache.delete(identifier), ttl)`; that deferred
deletion is a separate event and not part of the synchronous effect
modelled here. -/
def storeOtp (cache : OtpCache) (now : ℕ) (identifier otp : String)
    (ttl : ℕ := 300000) : OtpCache :=
  cache.set identifier ⟨otp, now + ttl⟩

/-- `isOtpValid(identifier, otp)`: returns the boolean result together
with the cache after the call (the source mutates `otpCache` in place
when it deletes an expired entry).  `Date.now() > expiry` becomes
`d.expiry < now`. -/
def isOtpValid (cache : OtpCache) (now : ℕ) (identifier otp : String) :
    Bool × OtpCache :=
  match cache identifier with
  | none => (false, cache)
  | some otpData =>
    if otpData.expiry < now then
      (false, cache.delete identifier)
    else
      (otpData.otp == otp, cache)

noncomputable section

open Real

/-- `interface Location { latitude: number; longitude: number }`. -/
structure Location where
  latitude : ℝ
  longitude : ℝ

/-- `interface PricingOptions` with three optional multiplier fields. -/
structure PricingOptions where
  trafficFactor : Option ℝ
  weatherFactor : Option ℝ
  timeFactor : Option ℝ

/-- `const toRadians = (degrees) => degrees * (Math.PI / 180)`. -/
def toRadians (degrees : ℝ) : ℝ := degrees * (Real.pi / 180)

open Classical in
/-- `Math.atan2(y, x)` for finite arguments, per the JavaScript / IEEE
definition: the angle of the point `(x, y)` in `(-π, π]`. -/
def atan2 (y x : ℝ) : ℝ :=
  if 0 < x then Real.arctan (y / x)
  else if x < 0 then
    (if 0 ≤ y then Real.arctan (y / x) + Real.pi else Real.arctan (y / x) - Real.pi)
  else if 0 < y then Real.pi / 2
  else if y < 0 then -(Real.pi / 2)
  else 0

/-- `haversineDistance(loc1, loc2)` from the source. -/
def haversineDistance (loc1 loc2 : Location) : ℝ :=
  let R : ℝ := 6371
  let dLat := toRadians (loc2.latitude - loc1.latitude)
  let dLon := toRadians (loc2.longitude - loc1.longitude)
  let lat1 := toRadians loc1.latitude
  let lat2 := toRadians loc2.latitude
  let a :=
    Real.sin (dLat / 2) * Real.sin (dLat / 2) +
      Real.sin (dLon / 2) * Real.sin (dLon / 2) * Real.cos lat1 * Real.cos lat2
  let c := 2 * atan2 (Real.sqrt a) (Real.sqrt (1 - a))
  R * c

/-- The great-circle distance exactly as the spec words it:
`h = sin²(dLat/2) + cos(rad(a.lat))·cos(rad(b.lat))·sin²(dLon/2)`,
`c = 2·atan2(√h, √(1-h))`, `distance = 6371·c`.  Stated separately from
`haversineDistance` so the two can be compared. -/
def distanceSpec (a b : Location) : ℝ :=
  let dLat := toRadians (b.latitude - a.latitude)
  let dLon := toRadians (b.longitude - a.longitude)
  let h := Real.sin (dLat / 2) ^ 2 +
    Real.cos (toRadians a.latitude) * Real.cos (toRadians b.latitude) *
      Real.sin (dLon / 2) ^ 2
  let c := 2 * atan2 (Real.sqrt h) (Real.sqrt (1 - h))
  6371 * c

/-- The numeric value that `x.toFixed(2)` renders: `x` rounded at two
decimal places. -/
def toFixed2 (x : ℝ) : ℝ := (round (x * 100) : ℤ) / 100

/-- Left-pad a two-digit fraction with a zero. -/
def pad2 (n : ℕ) : String := if n < 10 then "0" ++ toString n else toString n

/-- The string `x.toFixed(2)` produces. -/
def formatFixed2 (x : ℝ) : String :=
  let n : ℤ := round (x * 100)
  (if n < 0 then "-" else "") ++ toString (n.natAbs / 100) ++ "." ++ pad2 (n.natAbs % 100)

/-- The `totalFare` value `calculateRidePrice` accumulates before the
final `toFixed(2)`: `BASE_FARE + distanceInKm * RATE_PER_KM`, then
`*= surgeMultiplier; *= trafficFactor; *= weatherFactor; *= timeFactor`,
with each factor defaulting to `1` when absent. -/
def rideFareRaw (pickup destination : Location) (surgeMultiplier : ℝ)
    (options : PricingOptions) : ℝ :=
  let BASE_FARE : ℝ := 5
  let RATE_PER_KM : ℝ := 2
  let trafficFactor := options.trafficFactor.getD 1
  let weatherFactor := options.weatherFactor.getD 1
  let timeFactor := options.timeFactor.getD 1
  let distanceInKm := haversineDistance pickup destination
  let totalFare := BASE_FARE + distanceInKm * RATE_PER_KM
  totalFare * surgeMultiplier * trafficFactor * weatherFactor * timeFactor

/-- `calculateRidePrice(...)`: returns `totalFare.toFixed(2)`, a string. -/
def calculateRidePrice (pickup destination : Location) (surgeMultiplier : ℝ)
    (options : PricingOptions) : String :=
  formatFixed2 (rideFareRaw pickup destination surgeMultiplier options)

/-- The numeric value denoted by the string `calculateRidePrice` returns. -/
def calculateRidePriceVal (pickup destination : Location) (surgeMultiplier : ℝ)
    (options : PricingOptions) : ℝ :=
  toFixed2 (rideFareRaw pickup destination surgeMultiplier options)

/-- The fare estimate exactly as the spec words it:
`fare = (BASE_FARE + distanceKm * RATE_PER_KM) * surgeMultiplier *
trafficFactor * weatherFactor * timeFactor` with `BASE_FARE = 5`,
`RATE_PER_KM = 2`, `distanceKm = distance(p, d)`, rounded to two
decimal places. -/
def estimateSpec (p d : Location)
    (surgeMultiplier trafficFactor weatherFactor timeFactor : ℝ) : ℝ :=
  let BASE_FARE : ℝ := 5
  let RATE_PER_KM : ℝ := 2
  let distanceKm := distanceSpec p d
  toFixed2 ((BASE_FARE + distanceKm * RATE_PER_KM) * surgeMultiplier *
    trafficFactor * weatherFactor * timeFactor)

/-- The JSON body of a `POST /ride-price` request, with optional fields. -/
structure PriceRequestBody where
  pickup : Option Location
  destination : Option Location
  surgeMultiplier : Option ℝ
  trafficFactor : Option ℝ
  weatherFactor : Option ℝ
  timeFactor : Option ℝ

/-- Outcome of the `PriceCalculation` handler: `200 {success:true, price}`
or `400 {success:false, message}`. -/
inductive PriceResponse where
  | ok (price : String)
  | badRequest (message : String)

open Classical in
/-- The `PriceCalculation` handler.  The guard
`if (!pickup || !destination || !surgeMultiplier)` rejects a missing
`pickup`/`destination`/`surgeMultiplier`, and — because `0` is falsy in
JavaScript — also a present `surgeMultiplier` equal to `0`. -/
def PriceCalculation (body : PriceRequestBody) : PriceResponse :=
  match body.pickup, body.destination, body.surgeMultiplier with
  | some pickup, some destination, some surgeMultiplier =>
    if surgeMultiplier = 0 then
      .badRequest "Invalid or missing parameters"
    else
      .ok (calculateRidePrice pickup destination surgeMultiplier
        ⟨body.trafficFactor, body.weatherFactor, body.timeFactor⟩)
  | _, _, _ => .badRequest "Invalid or missing parameters"

/-- A `/ride-price` body whose three required fields are all present but
whose `surgeMultiplier` is `0` (a falsy number in JavaScript). -/
def bodyZeroSurge : PriceRequestBody :=
  ⟨some ⟨0, 0⟩, some ⟨0, 0⟩, some 0, none, none, none⟩

/-- A well-formed `/ride-price` body: pickup and destination coincide and
the surge multiplier is `1`. -/
def bodyOk : PriceRequestBody :=
  ⟨some ⟨0, 0⟩, some ⟨0, 0⟩, some 1, none, none, none⟩

end

/-- A concrete cache used to exercise the OTP theorems: one entry for
`"alice"` with code `"1234"` expiring at time `100`. -/
def cache1 : OtpCache := fun k => if k = "alice" then some ⟨"1234", 100⟩ else none

/-! ### Helper lemmas about the geodesic code -/

section GeoLemmas

open Real

/-- Congruence helper: the Haversine result only depends on the inner
sum-of-squares expression. -/
theorem hav_arg_congr (x y : ℝ) (h : x = y) :
    6371 * (2 * atan2 (Real.sqrt x) (Real.sqrt (1 - x))) =
      6371 * (2 * atan2 (Real.sqrt y) (Real.sqrt (1 - y))) := by
  rw [h]

/-- `Math.atan2(0, 1) = 0`. -/
theorem atan2_zero_one : atan2 0 1 = 0 := by
  unfold atan2
  rw [if_pos (by norm_num : (0:ℝ) < 1)]
  simp [Real.arctan_zero]

/-- `Math.atan2(1, 0) = π/2`. -/
theorem atan2_one_zero : atan2 1 0 = Real.pi / 2 := by
  unfold atan2
  rw [if_neg (by norm_num : ¬ (0:ℝ) < 0), if_neg (by norm_num : ¬ (0:ℝ) < 0),
    if_pos (by norm_num : (0:ℝ) < 1)]

/-- The code's `haversineDistance` computes exactly the spec's formula. -/
theorem distanceSpec_eq_haversine (a b : Location) :
    distanceSpec a b = haversineDistance a b := by
  simp only [distanceSpec, haversineDistance]
  exact hav_arg_congr _ _ (by ring)

/-- `haversineDistance` is symmetric in its two arguments. -/
theorem haversineDistance_comm (a b : Location) :
    haversineDistance a b = haversineDistance b a := by
  simp only [haversineDistance]
  apply hav_arg_congr
  have h1 : ∀ x y : ℝ, Real.sin (toRadians (x - y) / 2) =
      -Real.sin (toRadians (y - x) / 2) := by
    intro x y
    have hxy : toRadians (x - y) = -toRadians (y - x) := by
      simp only [toRadians]; ring
    rw [hxy, neg_div, Real.sin_neg]
  rw [h1 b.latitude a.latitude, h1 b.longitude a.longitude]
  ring

/-- The distance from any point to itself is zero. -/
theorem haversineDistance_self (a : Location) : haversineDistance a a = 0 := by
  simp [haversineDistance, toRadians, atan2_zero_one]

end GeoLemmas

/-! ### Claims about the distance function and the fare formula -/

/-- C2.  For every pair of coordinates `a` and `b`, the code's
`haversineDistance a b` equals the spec's Haversine formula
`6371 · 2·atan2(√h, √(1-h))` with
`h = sin²(dLat/2) + cos(rad(a.lat))·cos(rad(b.lat))·sin²(dLon/2)`. -/
theorem haversineDistance_matches_spec_formula (a b : Location) :
    haversineDistance a b = distanceSpec a b :=
  (distanceSpec_eq_haversine a b).symm

/-- C6.  `distance(a, b) = distance(b, a)` for all coordinates, and
`distance(a, a) = 0` for every coordinate. -/
theorem haversine_symm_and_self_zero :
    (∀ a b : Location, haversineDistance a b = haversineDistance b a) ∧
      (∀ a : Location, haversineDistance a a = 0) :=
  ⟨haversineDistance_comm, haversineDistance_self⟩

/-- C1.  For every pickup, destination, surge multiplier and optional
pricing factors (defaulting to 1 when absent), the value rendered by
`calculateRidePrice` equals
`(BASE_FARE + distanceKm * RATE_PER_KM) * surge * traffic * weather * time`
with `BASE_FARE = 5`, `RATE_PER_KM = 2`,
`distanceKm = distance(p, d)`, rounded to 2 decimal places. -/
theorem fare_estimate_matches_spec (p d : Location) (s : ℝ)
    (opts : PricingOptions) :
    calculateRidePriceVal p d s opts =
      estimateSpec p d s (opts.trafficFactor.getD 1) (opts.weatherFactor.getD 1)
        (opts.timeFactor.getD 1) := by
  simp only [calculateRidePriceVal, estimateSpec, rideFareRaw, toFixed2]
  rw [distanceSpec_eq_haversine]

/-! ### Claims about the OTP store -/

/-- C3.  `isOtpValid` returns `false` when no entry exists; deletes the
entry and returns `false` when `now` is strictly past the expiry; and
otherwise returns whether the candidate equals the stored code without
touching the store, so a correct code validates `true` repeatedly until
expiry.  Being a total function, it raises no exception on any path. -/
theorem isOtpValid_behavior (cache : OtpCache) (now : ℕ)
    (identifier candidate : String) :
    (cache identifier = none →
      isOtpValid cache now identifier candidate = (false, cache)) ∧
    (∀ d, cache identifier = some d → d.expiry < now →
      isOtpValid cache now identifier candidate = (false, cache.delete identifier)) ∧
    (∀ d, cache identifier = some d → now ≤ d.expiry →
      isOtpValid cache now identifier candidate = ((d.otp == candidate), cache) ∧
      (candidate = d.otp → ∀ now2, now2 ≤ d.expiry →
        (isOtpValid (isOtpValid cache now identifier candidate).2
          now2 identifier candidate).1 = true)) := by
  refine ⟨?_, ?_, ?_⟩
  · intro h
    simp [isOtpValid, h]
  · intro d hd hexp
    simp [isOtpValid, hd, hexp]
  · intro d hd hexp
    have hnot : ¬ d.expiry < now := not_lt.mpr hexp
    constructor
    · simp [isOtpValid, hd, hnot]
    · intro hc now2 hexp2
      have hnot2 : ¬ d.expiry < now2 := not_lt.mpr hexp2
      simp [isOtpValid, hd, hnot, hnot2, hc]

/-- Witness for C3: in `cache1` at time `50`, the correct code `"1234"`
for `"alice"` validates `true` without changing the store, and validates
`true` again at time `60`. -/
theorem isOtpValid_behavior_witness :
    cache1 "alice" = some ⟨"1234", 100⟩ ∧ (50 : ℕ) ≤ 100 ∧
      isOtpValid cache1 50 "alice" "1234" = (true, cache1) ∧
      (isOtpValid (isOtpValid cache1 50 "alice" "1234").2 60 "alice" "1234").1
        = true := by
  have h := (isOtpValid_behavior cache1 50 "alice" "1234").2.2
    ⟨"1234", 100⟩ rfl (by decide)
  refine ⟨rfl, by decide, ?_, h.2 rfl 60 (by decide)⟩
  simpa using h.1

/-- C4.  A code never validates once its entry has expired (for every
time strictly after the stored expiry, validation returns `false` even
when the candidate equals the stored code), and never validates once its
entry has been removed from the store. -/
theorem expired_or_absent_otp_never_validates (cache : OtpCache) (now : ℕ)
    (identifier candidate : String) :
    (∀ d, cache identifier = some d → d.expiry < now →
      (isOtpValid cache now identifier candidate).1 = false) ∧
    (cache identifier = none →
      (isOtpValid cache now identifier candidate).1 = false) := by
  constructor
  · intro d hd hexp
    simp [isOtpValid, hd, hexp]
  · intro h
    simp [isOtpValid, h]

/-- Witness for C4: at time `200`, strictly past `cache1`'s expiry `100`,
even the stored code `"1234"` no longer validates. -/
theorem expired_or_absent_otp_never_validates_witness :
    cache1 "alice" = some ⟨"1234", 100⟩ ∧ (100 : ℕ) < 200 ∧
      (isOtpValid cache1 200 "alice" "1234").1 = false :=
  ⟨rfl, by decide,
    (expired_or_absent_otp_never_validates cache1 200 "alice" "1234").1
      ⟨"1234", 100⟩ rfl (by decide)⟩

/-- C5.  Issuing a second code for the same identifier overwrites the
first entry (last-write-wins): afterwards the entry holds the latest
code, and before the new expiry a candidate validates `true` exactly
when it equals the latest code — in particular an earlier, different
code validates `false`. -/
theorem storeOtp_last_write_wins (cache : OtpCache)
    (now1 now2 now ttl1 ttl2 : ℕ) (identifier otp1 otp2 candidate : String) :
    (storeOtp (storeOtp cache now1 identifier otp1 ttl1) now2 identifier otp2 ttl2)
        identifier = some ⟨otp2, now2 + ttl2⟩ ∧
    (now ≤ now2 + ttl2 →
      ((isOtpValid
          (storeOtp (storeOtp cache now1 identifier otp1 ttl1) now2 identifier otp2 ttl2)
          now identifier candidate).1 = true ↔ candidate = otp2)) ∧
    (now ≤ now2 + ttl2 → otp1 ≠ otp2 →
      (isOtpValid
          (storeOtp (storeOtp cache now1 identifier otp1 ttl1) now2 identifier otp2 ttl2)
          now identifier otp1).1 = false) := by
  have hset : (storeOtp (storeOtp cache now1 identifier otp1 ttl1) now2 identifier otp2 ttl2)
      identifier = some ⟨otp2, now2 + ttl2⟩ := by
    simp [storeOtp, OtpCache.set]
  refine ⟨hset, ?_, ?_⟩
  · intro hnow
    have hcond : ¬ (now2 + ttl2 < now) := by omega
    simp [isOtpValid, hset, hcond]
    exact eq_comm
  · intro hnow hne
    have hcond : ¬ (now2 + ttl2 < now) := by omega
    simp [isOtpValid, hset, hcond]
    exact fun h => hne h.symm

/-- Witness for C5: after issuing `"1111"` then `"2222"` for `"bob"`,
at time `15` (before the new expiry `300010`) the latest code validates
`true` and the earlier one validates `false`. -/
theorem storeOtp_last_write_wins_witness :
    (15 : ℕ) ≤ 10 + 300000 ∧ "1111" ≠ "2222" ∧
      (isOtpValid (storeOtp (storeOtp emptyCache 0 "bob" "1111" 300000)
          10 "bob" "2222" 300000) 15 "bob" "2222").1 = true ∧
      (isOtpValid (storeOtp (storeOtp emptyCache 0 "bob" "1111" 300000)
          10 "bob" "2222" 300000) 15 "bob" "1111").1 = false := by
  have h := storeOtp_last_write_wins emptyCache 0 10 15 300000 300000 "bob" "1111" "2222" "2222"
  have h2 := storeOtp_last_write_wins emptyCache 0 10 15 300000 300000 "bob" "1111" "2222" "1111"
  exact ⟨by decide, by decide, (h.2.1 (by decide)).mpr rfl,
    h2.2.2 (by decide) (by decide)⟩

/-- C10 (frame property).  Validating against an unexpired entry leaves
the entire store unchanged whether the candidate matches or not, and
both `storeOtp` and `isOtpValid` for identifier `X` never modify or
remove the entry of any identifier other than `X`. -/
theorem otp_store_frame_property (cache : OtpCache) (now : ℕ)
    (identifier candidate : String) :
    (∀ d, cache identifier = some d → now ≤ d.expiry →
      (isOtpValid cache now identifier candidate).2 = cache) ∧
    (∀ other, other ≠ identifier →
      (isOtpValid cache now identifier candidate).2 other = cache other ∧
      (∀ otp ttl now1, storeOtp cache now1 identifier otp ttl other = cache other)) := by
  constructor
  · intro d hd hexp
    simp [isOtpValid, hd, not_lt.mpr hexp]
  · intro other hother
    constructor
    · unfold isOtpValid
      match hcase : cache identifier with
      | none => rfl
      | some d =>
        by_cases hexp : d.expiry < now
        · simp [hexp, OtpCache.delete, hother]
        · simp [hexp]
    · intro otp ttl now1
      simp [storeOtp, OtpCache.set, hother]

/-- Witness for C10: validating `"alice"` (wrong code, unexpired entry)
leaves `cache1` unchanged, and neither validating nor issuing for
`"alice"` touches the (absent) entry of `"bob"`. -/
theorem otp_store_frame_property_witness :
    cache1 "alice" = some ⟨"1234", 100⟩ ∧ (50 : ℕ) ≤ 100 ∧ "bob" ≠ "alice" ∧
      (isOtpValid cache1 50 "alice" "9999").2 = cache1 ∧
      (isOtpValid cache1 50 "alice" "9999").2 "bob" = cache1 "bob" ∧
      storeOtp cache1 7 "alice" "5678" 300000 "bob" = cache1 "bob" := by
  have h := otp_store_frame_property cache1 50 "alice" "9999"
  exact ⟨rfl, by decide, by decide,
    h.1 ⟨"1234", 100⟩ rfl (by decide),
    (h.2 "bob" (by decide)).1,
    (h.2 "bob" (by decide)).2 "5678" 300000 7⟩

/-! ### Claims about OTP generation -/

/-- With enough fuel, `Nat.toDigitsCore` produces the base-`b` digits of
`n` (most significant first) in front of the accumulator. -/
theorem toDigitsCore_eq_digits (b : ℕ) (hb : 1 < b) :
    ∀ (f n : ℕ) (acc : List Char), 0 < n → n < f →
      Nat.toDigitsCore b f n acc =
        ((Nat.digits b n).map Nat.digitChar).reverse ++ acc := by
  intro f
  induction f with
  | zero => intro n acc hn hf; omega
  | succ f ih =>
    intro n acc hn hf
    simp only [Nat.toDigitsCore]
    by_cases hq : n / b = 0
    · rw [if_pos hq, Nat.digits_def' hb hn, hq]
      simp
    · rw [if_neg hq, ih (n / b) _ (Nat.pos_of_ne_zero hq)
        (by have := Nat.div_lt_self hn hb; omega), Nat.digits_def' hb hn]
      simp

/-- `Nat.repr` of a positive number is its decimal digit list, most
significant first. -/
theorem repr_eq_digits (n : ℕ) (hn : 0 < n) :
    Nat.repr n = (((Nat.digits 10 n).map Nat.digitChar).reverse).asString := by
  unfold Nat.repr Nat.toDigits
  rw [toDigitsCore_eq_digits 10 (by norm_num) (n + 1) n [] hn (Nat.lt_succ_self n),
    List.append_nil]

/-- The character for a decimal digit is a digit character. -/
theorem digitChar_isDigit (d : ℕ) (hd : d < 10) : (Nat.digitChar d).isDigit = true := by
  interval_cases d <;> decide

/-- The decimal representation of any `n` with `1000 ≤ n < 10000` is a
string of exactly four characters, all digits. -/
theorem four_digit_repr (n : ℕ) (h1 : 1000 ≤ n) (h2 : n < 10000) :
    (toString n).length = 4 ∧ (toString n).data.all Char.isDigit = true := by
  have hrepr : toString n = (((Nat.digits 10 n).map Nat.digitChar).reverse).asString :=
    repr_eq_digits n (by omega)
  have hlen : (Nat.digits 10 n).length = 4 := by
    rw [Nat.digits_len 10 n (by norm_num) (by omega)]
    have e1 : (10 : ℕ) ^ 3 ≤ n := by norm_num; omega
    have e2 : n < (10 : ℕ) ^ (3 + 1) := by norm_num; omega
    have := Nat.log_eq_of_pow_le_of_lt_pow e1 e2
    omega
  constructor
  · rw [hrepr]
    show (((Nat.digits 10 n).map Nat.digitChar).reverse).length = 4
    simp [hlen]
  · rw [hrepr]
    show (((Nat.digits 10 n).map Nat.digitChar).reverse).all Char.isDigit = true
    rw [List.all_eq_true]
    intro c hc
    rw [List.mem_reverse, List.mem_map] at hc
    obtain ⟨d, hd, rfl⟩ := hc
    exact digitChar_isDigit d (Nat.digits_lt_base (by norm_num) hd)

/-- C9.  For every outcome `r` of `Math.random()` (so `0 ≤ r < 1`), the
issued code is the decimal string of an integer in `1000..9999`, of
exactly four characters, all digits. -/
theorem generateOtp_four_digit_range (r : ℚ) (h0 : 0 ≤ r) (h1 : r < 1) :
    1000 ≤ (Int.toNat ⌊1000 + r * 9000⌋) ∧ (Int.toNat ⌊1000 + r * 9000⌋) ≤ 9999 ∧
      generateOtp r = toString (Int.toNat ⌊1000 + r * 9000⌋) ∧
      (generateOtp r).length = 4 ∧
      (generateOtp r).data.all Char.isDigit = true := by
  have hl : (1000 : ℤ) ≤ ⌊(1000 : ℚ) + r * 9000⌋ := by
    apply Int.le_floor.mpr
    push_cast
    nlinarith
  have hu : ⌊(1000 : ℚ) + r * 9000⌋ < 10000 := by
    apply Int.floor_lt.mpr
    push_cast
    nlinarith
  have h1000 : 1000 ≤ Int.toNat ⌊(1000 : ℚ) + r * 9000⌋ := by omega
  have h9999 : Int.toNat ⌊(1000 : ℚ) + r * 9000⌋ ≤ 9999 := by omega
  have hfd := four_digit_repr _ h1000 (by omega)
  exact ⟨h1000, h9999, rfl, hfd.1, hfd.2⟩

/-- Witness for C9 at `r = 1/2`: the generated value is `5500`, a
four-digit numeric string. -/
theorem generateOtp_four_digit_range_witness :
    (0 : ℚ) ≤ 1/2 ∧ (1/2 : ℚ) < 1 ∧
      (1000 ≤ (Int.toNat ⌊1000 + (1/2 : ℚ) * 9000⌋) ∧
        (Int.toNat ⌊1000 + (1/2 : ℚ) * 9000⌋) ≤ 9999 ∧
        generateOtp (1/2) = toString (Int.toNat ⌊1000 + (1/2 : ℚ) * 9000⌋) ∧
        (generateOtp (1/2)).length = 4 ∧
        (generateOtp (1/2)).data.all Char.isDigit = true) :=
  ⟨by norm_num, by norm_num,
    generateOtp_four_digit_range (1/2) (by norm_num) (by norm_num)⟩

/-! ### Claims about the `/ride-price` handler -/

/-- C8 (counterexample).  A body whose `pickup`, `destination` and
`surgeMultiplier` are all present, with `surgeMultiplier = 0`, is
nevertheless rejected with a 400 error: the handler's falsy check
`!surgeMultiplier` fires on `0`, so "400 exactly when a field is
missing" is false. -/
theorem priceCalculation_rejects_zero_surge :
    bodyZeroSurge.pickup ≠ none ∧ bodyZeroSurge.destination ≠ none ∧
      bodyZeroSurge.surgeMultiplier ≠ none ∧
      PriceCalculation bodyZeroSurge = .badRequest "Invalid or missing parameters" := by
  refine ⟨?_, ?_, ?_, ?_⟩ <;> simp [bodyZeroSurge, PriceCalculation]

/-- C8 (amended).  The handler responds 400 with an error message exactly
when `pickup` or `destination` is missing, or `surgeMultiplier` is
missing or equal to `0` (falsy); otherwise it responds success with the
fare rendered as a string with exactly 2 decimal places. -/
theorem priceCalculation_response (body : PriceRequestBody) :
    ((body.pickup = none ∨ body.destination = none ∨
        body.surgeMultiplier = none ∨ body.surgeMultiplier = some 0) →
      PriceCalculation body = .badRequest "Invalid or missing parameters") ∧
    (∀ p d s, body.pickup = some p → body.destination = some d →
      body.surgeMultiplier = some s → s ≠ 0 →
      PriceCalculation body =
        .ok (formatFixed2 (rideFareRaw p d s
          ⟨body.trafficFactor, body.weatherFactor, body.timeFactor⟩))) := by
  constructor
  · intro h
    rcases hp : body.pickup with _ | p
    · simp [PriceCalculation, hp]
    · rcases hd : body.destination with _ | d
      · simp [PriceCalculation, hp, hd]
      · rcases hs : body.surgeMultiplier with _ | s
        · simp [PriceCalculation, hp, hd, hs]
        · have hs0 : s = 0 := by
            rcases h with h | h | h | h
            · rw [hp] at h; exact absurd h (by simp)
            · rw [hd] at h; exact absurd h (by simp)
            · rw [hs] at h; exact absurd h (by simp)
            · rw [hs] at h; exact Option.some.inj h
          simp [PriceCalculation, hp, hd, hs, hs0]
  · intro p d s hp hd hs hsne
    simp [PriceCalculation, hp, hd, hs, hsne, calculateRidePrice]

/-- Witness for C8 (amended): the success branch on `bodyOk` and the
error branch on a body with no pickup. -/
theorem priceCalculation_response_witness :
    bodyOk.pickup = some ⟨0, 0⟩ ∧ bodyOk.destination = some ⟨0, 0⟩ ∧
      bodyOk.surgeMultiplier = some 1 ∧ (1 : ℝ) ≠ 0 ∧
      PriceCalculation bodyOk =
        .ok (formatFixed2 (rideFareRaw ⟨0, 0⟩ ⟨0, 0⟩ 1
          ⟨bodyOk.trafficFactor, bodyOk.weatherFactor, bodyOk.timeFactor⟩)) ∧
      PriceCalculation ⟨none, none, none, none, none, none⟩ =
        .badRequest "Invalid or missing parameters" := by
  refine ⟨rfl, rfl, rfl, by norm_num, ?_, ?_⟩
  · exact (priceCalculation_response bodyOk).2 ⟨0, 0⟩ ⟨0, 0⟩ 1 rfl rfl rfl (by norm_num)
  · exact (priceCalculation_response ⟨none, none, none, none, none, none⟩).1 (Or.inl rfl)

/-! ### Claims about multiplier composition -/

/-- Pickup `(0,0)` and destination `(0,180)` are antipodal points of the
model sphere: the code's distance between them is exactly `6371 · π`. -/
theorem haversine_zero_one_eighty :
    haversineDistance ⟨0, 0⟩ ⟨0, 180⟩ = 6371 * Real.pi := by
  simp only [haversineDistance, toRadians]
  have h0 : ((0 : ℝ) - 0) * (Real.pi / 180) = 0 := by ring
  have h180 : ((180 : ℝ) - 0) * (Real.pi / 180) = Real.pi := by ring
  have hl : (0 : ℝ) * (Real.pi / 180) = 0 := by ring
  rw [h0, h180, hl]
  norm_num [Real.sin_pi_div_two, atan2_one_zero]
  ring

/-- The unrounded fare of the antipodal ride at surge 1, no factors,
scaled by 100. -/
theorem fare_raw_one :
    rideFareRaw ⟨0, 0⟩ ⟨0, 180⟩ 1 ⟨none, none, none⟩ * 100 =
      500 + 1274200 * Real.pi := by
  simp only [rideFareRaw, Option.getD_none]
  rw [haversine_zero_one_eighty]
  ring

/-- The unrounded fare of the antipodal ride at surge 2, traffic factor
1.5, scaled by 100. -/
theorem fare_raw_surge :
    rideFareRaw ⟨0, 0⟩ ⟨0, 180⟩ 2 ⟨some 1.5, none, none⟩ * 100 =
      1500 + 3822600 * Real.pi := by
  simp only [rideFareRaw, Option.getD_some, Option.getD_none]
  rw [haversine_zero_one_eighty, show (1.5 : ℝ) = 3 / 2 from by norm_num]
  ring

/-- Rounding the surge-1 fare: `round(500 + 1274200·π) = 4003517`. -/
theorem round_fare_one : round ((500 : ℝ) + 1274200 * Real.pi) = 4003517 := by
  rw [round_eq, Int.floor_eq_iff]
  push_cast
  constructor
  · nlinarith [Real.pi_gt_d20]
  · nlinarith [Real.pi_lt_d20]

/-- Rounding the surge-2 fare: `round(1500 + 3822600·π) = 12010552`,
one cent more than `3 · 4003517`. -/
theorem round_fare_surge : round ((1500 : ℝ) + 3822600 * Real.pi) = 12010552 := by
  rw [round_eq, Int.floor_eq_iff]
  push_cast
  constructor
  · nlinarith [Real.pi_gt_d20]
  · nlinarith [Real.pi_lt_d20]

/-- C7 (counterexample).  With pickup `(0,0)` and destination `(0,180)`,
`estimate(p,d,2.0,{trafficFactor:1.5})` is `120105.52` while
`estimate(p,d,1.0,{}) · 2 · 1.5` is `120105.51`: the two-decimal
rounding applied inside each estimate breaks exact composition. -/
theorem fare_multiplier_composition_fails_after_rounding :
    calculateRidePriceVal ⟨0, 0⟩ ⟨0, 180⟩ 2 ⟨some 1.5, none, none⟩ ≠
      calculateRidePriceVal ⟨0, 0⟩ ⟨0, 180⟩ 1 ⟨none, none, none⟩ * 2 * 1.5 := by
  simp only [calculateRidePriceVal, toFixed2]
  rw [fare_raw_surge, fare_raw_one, round_fare_surge, round_fare_one]
  norm_num

/-- C7 (amended).  Multipliers compose multiplicatively and
independently on the unrounded fare: for every pickup and destination,
the raw fare at surge 2 and traffic factor 1.5 equals the raw fare at
surge 1 with no factors times `2 · 1.5`.  (After the final rounding to
2 decimals the composition can be off by one cent, per the
counterexample.) -/
theorem fare_multiplier_composition_raw (p d : Location) :
    rideFareRaw p d 2 ⟨some 1.5, none, none⟩ =
      rideFareRaw p d 1 ⟨none, none, none⟩ * 2 * 1.5 := by
  simp only [rideFareRaw, Option.getD_some, Option.getD_none]
  ring

end Dropwave
